import Mathlib

/-!
Verification development for the ArchiSwipe client and its two edge
functions.  The definitions below are shallow embeddings of the code in
src/src/app/swipe/page.tsx (first component version, lines 1-529),
src/supabase/functions/validate-avatar-upload/index.ts and
src/supabase/functions/set-admin-role/index.ts.  React state updates are
modelled as pure functions from the previous state (and the results of
the awaited remote calls) to the next state.
-/

/-- Embeds the ImageCardData interface of swipe/page.tsx: id, storage
path and optional description. -/
structure ImageCardData where
  id : Nat
  storage_path : String
  description : Option String
deriving DecidableEq, Repr

/-- Swipe direction as passed to completeSwipe. -/
inductive SwipeDir where
  | left
  | right
deriving DecidableEq, Repr

/-- The row written by supabase.from("swipes").insert in completeSwipe. -/
structure SwipeRow where
  user_id : String
  image_id : Nat
  direction : Bool
deriving DecidableEq, Repr

/-- Result of the awaited remote insert: ok, or an error object carrying
a Postgres error code string. -/
inductive DbResult where
  | ok
  | err (code : String)
deriving DecidableEq, Repr

/-- The TypeScript expression (direction === "right") used as the
boolean direction column of the insert. -/
def dirToBool : SwipeDir → Bool
  | SwipeDir.left => false
  | SwipeDir.right => true

/-- The setCards updater inside completeSwipe: if the list is non-empty
and the front card has the swiped id, drop the front (prev.slice(1));
otherwise leave the list unchanged. -/
def popIfFront (cards : List ImageCardData) (imageId : Nat) : List ImageCardData :=
  match cards with
  | [] => []
  | c :: rest => if c.id = imageId then rest else c :: rest

/-- Result of the try block of completeSwipe: either control reaches the
end normally with the new cards list, or a non-conflict DB error was
thrown before the setCards call (so the cards are unchanged). -/
inductive TryResult where
  | normal (cards : List ImageCardData)
  | thrown (code : String) (cards : List ImageCardData)
deriving DecidableEq, Repr

/-- The try block of completeSwipe for a given insert result: a conflict
code "23505" is only logged and the flow continues to the setCards call,
any other error is thrown, skipping the setCards call. -/
def swipeTryBody (cards : List ImageCardData) (imageId : Nat)
    (db : DbResult) : TryResult :=
  match db with
  | DbResult.ok => TryResult.normal (popIfFront cards imageId)
  | DbResult.err code =>
      if code = "23505" then TryResult.normal (popIfFront cards imageId)
      else TryResult.thrown code cards

/-- Observable outcome of one call to completeSwipe: the new cards
state, the list of insert calls issued to the swipes table, the value
passed to setError (the version of completeSwipe under analysis never
calls setError), and whether an exception escaped the function (the
surrounding catch swallows every thrown error). -/
structure SwipeOutcome where
  cards : List ImageCardData
  inserts : List SwipeRow
  errorSet : Option String
  propagated : Bool
deriving DecidableEq, Repr

/-- Embeds completeSwipe of swipe/page.tsx (lines 155-208).  userIdOpt
is none when there is no session user or no supabase client (early
return).  procSet models the currentlyProcessingSwipe ref; an id already
in it also causes the early return.  Otherwise exactly one insert is
issued, the try body runs against the insert result db, and the catch
block swallows any thrown error. The finally block removes imageId from
the processing set again, so the set is unchanged overall and is not
part of the outcome. -/
def completeSwipe (userIdOpt : Option String) (procSet : List Nat)
    (cards : List ImageCardData) (imageId : Nat) (dir : SwipeDir)
    (db : DbResult) : SwipeOutcome :=
  match userIdOpt with
  | none =>
      { cards := cards, inserts := [], errorSet := none, propagated := false }
  | some uid =>
      if procSet.contains imageId then
        { cards := cards, inserts := [], errorSet := none, propagated := false }
      else
        let row : SwipeRow :=
          { user_id := uid, image_id := imageId, direction := dirToBool dir }
        match swipeTryBody cards imageId db with
        | TryResult.normal cs =>
            { cards := cs, inserts := [row], errorSet := none, propagated := false }
        | TryResult.thrown _ cs =>
            { cards := cs, inserts := [row], errorSet := none, propagated := false }

/-- True exactly when the try body of completeSwipe reaches the setCards
call: the insert succeeded, or failed with the unique-violation code
"23505". -/
def swipeProceeds : DbResult → Bool
  | DbResult.ok => true
  | DbResult.err code => code == "23505"

/-- The setCards updater of fetchImages (lines 97-106): collect the ids
already present, keep only fetched cards whose id is not among them, and
append those at the end in fetched order. -/
def fetchCombine (prev newCards : List ImageCardData) : List ImageCardData :=
  let existingIds := prev.map (fun card => card.id)
  let uniqueNewCards := newCards.filter (fun card => !(existingIds.contains card.id))
  prev ++ uniqueNewCards

/-- The cards-state effect of one successful fetch (lines 96-121): a
non-empty batch is combined into the list, an empty batch leaves the
list unchanged. -/
def fetchImagesUpdate (prev newCards : List ImageCardData) : List ImageCardData :=
  if 0 < newCards.length then fetchCombine prev newCards else prev

/-- CARD_FETCH_THRESHOLD of swipe/page.tsx line 33. -/
def CARD_FETCH_THRESHOLD : Nat := 3

/-- The condition of the prefetch effect (lines 144-151): fetch when no
fetch is in flight, the backend has not been confirmed empty, and the
cards list is non-empty but shorter than CARD_FETCH_THRESHOLD. -/
def prefetchTriggers (isFetching outOfCards : Bool)
    (cards : List ImageCardData) : Bool :=
  !isFetching && !outOfCards && decide (0 < cards.length)
    && decide (cards.length < CARD_FETCH_THRESHOLD)

/-- The cards list carries pairwise distinct ids. -/
def nodupIds (cards : List ImageCardData) : Prop :=
  (cards.map (fun card => card.id)).Nodup

instance (cards : List ImageCardData) : Decidable (nodupIds cards) := by
  unfold nodupIds
  infer_instance

/-- KEY_COOLDOWN_MS of swipe/page.tsx line 34. -/
def KEY_COOLDOWN_MS : Int := 400

/-- Keyboard keys distinguished by the onKeyDown handler. -/
inductive Key where
  | arrowLeft
  | arrowRight
  | other (name : String)
deriving DecidableEq, Repr

/-- Observable outcome of the onKeyDown handler: the new value of the
lastKeyPressTime ref, the completeSwipe call it makes (if any), and the
cards list, which the handler itself never modifies. -/
structure KeyResult where
  lastKeyPressTime : Int
  action : Option (Nat × SwipeDir)
  cards : List ImageCardData
deriving DecidableEq, Repr

/-- Embeds the onKeyDown handler (lines 212-230): return untouched while
the cooldown is active, while auth is loading or the list is empty;
otherwise an arrow key records the press time and swipes the top card. -/
def onKeyDown (now lastKeyPressTime : Int) (isLoadingAuth : Bool)
    (cards : List ImageCardData) (key : Key) : KeyResult :=
  if now - lastKeyPressTime < KEY_COOLDOWN_MS then
    { lastKeyPressTime := lastKeyPressTime, action := none, cards := cards }
  else if isLoadingAuth || cards.isEmpty then
    { lastKeyPressTime := lastKeyPressTime, action := none, cards := cards }
  else
    match cards with
    | [] => { lastKeyPressTime := lastKeyPressTime, action := none, cards := cards }
    | topCard :: _ =>
        match key with
        | Key.arrowLeft =>
            { lastKeyPressTime := now,
              action := some (topCard.id, SwipeDir.left), cards := cards }
        | Key.arrowRight =>
            { lastKeyPressTime := now,
              action := some (topCard.id, SwipeDir.right), cards := cards }
        | Key.other _ =>
            { lastKeyPressTime := lastKeyPressTime, action := none, cards := cards }

/-- MAX_FILE_SIZE_MB of validate-avatar-upload/index.ts line 5. -/
def MAX_FILE_SIZE_MB : Int := 2

/-- ALLOWED_MIME_TYPES of validate-avatar-upload/index.ts line 6. -/
def ALLOWED_MIME_TYPES : List String :=
  ["image/jpeg", "image/png", "image/gif", "image/webp"]

/-- A JSON metadata field as seen by the typeof checks of the handler: a
number, a string, or absent/of another type. -/
inductive MetaValue where
  | num (n : Int)
  | str (s : String)
  | missing
deriving DecidableEq, Repr

/-- The storage.objects insert record fields read by the handler. -/
structure StorageRecord where
  bucket_id : String
  name : String
  size : MetaValue
  mimetype : MetaValue
deriving DecidableEq, Repr

/-- The first validation branch (line 37): invalid when typeof size is
not number, or the size exceeds MAX_FILE_SIZE_MB * 1024 * 1024. -/
def sizeCheckFails : MetaValue → Bool
  | MetaValue.num n => decide (MAX_FILE_SIZE_MB * 1024 * 1024 < n)
  | MetaValue.str _ => true
  | MetaValue.missing => true

/-- The toLowerCase call applied to the mimetype string, modelled as a
character-wise lowering of the underlying character list (the mime
strings involved are plain ASCII). -/
def toLowerStr (s : String) : String :=
  String.mk (s.data.map Char.toLower)

/-- The second validation branch (line 42): invalid when typeof mimetype
is not string, or its lowercase form is not in ALLOWED_MIME_TYPES. -/
def mimeCheckFails : MetaValue → Bool
  | MetaValue.num _ => true
  | MetaValue.str s => !(ALLOWED_MIME_TYPES.contains (toLowerStr s))
  | MetaValue.missing => true

/-- Outcome of handleStorageObjectInsert: skipped (not the avatars
bucket), validated (success message returned), deletedInvalid (object
removed, invalid-file error thrown), or cleanupFailed (removal attempted
but it failed, cleanup error thrown). -/
inductive HandleOutcome where
  | skipped
  | validated
  | deletedInvalid
  | cleanupFailed
deriving DecidableEq, Repr

/-- Embeds handleStorageObjectInsert of validate-avatar-upload/index.ts
(lines 9-69).  removeOk is the result of the storage remove call, which
is only issued when validation fails. -/
def handleStorageObjectInsert (record : StorageRecord) (removeOk : Bool) :
    HandleOutcome :=
  if record.bucket_id ≠ "avatars" then HandleOutcome.skipped
  else if sizeCheckFails record.size || mimeCheckFails record.mimetype then
    (if removeOk then HandleOutcome.deletedInvalid else HandleOutcome.cleanupFailed)
  else HandleOutcome.validated

/-- The outcomes in which the handler issued a storage remove call for
the object. -/
def deleteIssued : HandleOutcome → Bool
  | HandleOutcome.deletedInvalid => true
  | HandleOutcome.cleanupFailed => true
  | _ => false

/-- The outcomes in which the handler throws, which the serve wrapper
reports as an HTTP error response. -/
def reportsError : HandleOutcome → Bool
  | HandleOutcome.deletedInvalid => true
  | HandleOutcome.cleanupFailed => true
  | _ => false

/-- Embeds the appMetadataUpdate computation of set-admin-role/index.ts
(lines 29-44): with isAdmin the roles array becomes exactly ["admin"];
otherwise the "admin" entries are filtered out of the current roles and,
when nothing remains, the roles key is set to undefined, i.e. dropped
(modelled as none).  currentRoles is the array fetched from the user
record (app_metadata.roles, defaulted to []). -/
def adminRoleUpdate (isAdmin : Bool) (currentRoles : List String) :
    Option (List String) :=
  if isAdmin then some ["admin"]
  else
    let updatedRoles := currentRoles.filter (fun role => !(role == "admin"))
    if 0 < updatedRoles.length then some updatedRoles else none

/-! Theorems -/

/-- Both bookkeeping fields of a completeSwipe outcome are inert: the
function never calls setError and the catch block swallows every thrown
error, so no exception escapes. -/
lemma completeSwipe_quiet (userIdOpt : Option String) (procSet : List Nat)
    (cards : List ImageCardData) (imageId : Nat) (dir : SwipeDir)
    (db : DbResult) :
    (completeSwipe userIdOpt procSet cards imageId dir db).errorSet = none
    ∧ (completeSwipe userIdOpt procSet cards imageId dir db).propagated = false := by
  cases userIdOpt with
  | none => exact ⟨rfl, rfl⟩
  | some uid =>
    unfold completeSwipe
    by_cases hp : imageId ∈ procSet
    · simp [hp]
    · have hb : procSet.contains imageId = false := by simpa using hp
      cases h : swipeTryBody cards imageId db <;> simp [hp, hb, h]

/-- Claim C1: with a session present and the id not already being
processed, one call to completeSwipe issues exactly one insert into the
swipes table, whose direction column is false for a left swipe and true
for a right swipe; and a left swipe whose id matches the front card
(with a successful insert) pops that card off the local list while
issuing its single direction=false insert. -/
theorem claim_C1 (uid : String) (procSet : List Nat)
    (cards : List ImageCardData) (imageId : Nat) (dir : SwipeDir)
    (db : DbResult) (hproc : procSet.contains imageId = false) :
    (completeSwipe (some uid) procSet cards imageId dir db).inserts
        = [{ user_id := uid, image_id := imageId, direction := dirToBool dir }]
    ∧ dirToBool SwipeDir.left = false
    ∧ dirToBool SwipeDir.right = true
    ∧ (dir = SwipeDir.left → db = DbResult.ok →
        cards.head?.map (fun c => c.id) = some imageId →
        (completeSwipe (some uid) procSet cards imageId dir db).cards = cards.tail
        ∧ (completeSwipe (some uid) procSet cards imageId dir db).inserts
            = [{ user_id := uid, image_id := imageId, direction := false }]) := by
  have hmem : imageId ∉ procSet := by simpa using hproc
  refine ⟨?_, rfl, rfl, ?_⟩
  · cases db with
    | ok => simp [completeSwipe, hmem, swipeTryBody]
    | err code =>
      by_cases hc : code = "23505" <;>
        simp [completeSwipe, hmem, swipeTryBody, hc]
  · rintro rfl rfl hhead
    cases cards with
    | nil => simp at hhead
    | cons c rest =>
      have hid : c.id = imageId := by simpa using hhead
      simp [completeSwipe, hmem, swipeTryBody, popIfFront, hid, dirToBool]

/-- Witness for claim C1 at a concrete left swipe of the top card. -/
theorem claim_C1_witness :
    (([] : List Nat).contains 1 = false)
    ∧ (completeSwipe (some "u") [] [⟨1, "p", none⟩] 1 SwipeDir.left
        DbResult.ok).inserts = [{ user_id := "u", image_id := 1, direction := false }]
    ∧ (completeSwipe (some "u") [] [⟨1, "p", none⟩] 1 SwipeDir.left
        DbResult.ok).cards = [] := by
  have h := claim_C1 "u" [] [⟨1, "p", none⟩] 1 SwipeDir.left DbResult.ok (by decide)
  have h2 := h.2.2.2 rfl rfl (by decide)
  exact ⟨by decide, h2.2, by simpa using h2.1⟩

/-- Counterexample for claim C2: a swipe whose insert fails with a
non-conflict error code (here "42P01") still issues the insert, but the
thrown error skips the setCards call, so the swiped card is NOT removed
from the queue, contradicting the removal-regardless-of-failure claim. -/
theorem claim_C2_counterexample :
    (completeSwipe (some "u") [] [⟨1, "p", none⟩] 1 SwipeDir.left
        (DbResult.err "42P01")).inserts
        = [{ user_id := "u", image_id := 1, direction := false }]
    ∧ (completeSwipe (some "u") [] [⟨1, "p", none⟩] 1 SwipeDir.left
        (DbResult.err "42P01")).cards = [⟨1, "p", none⟩] := by decide

/-- Claim C2 as amended: the swiped card is popped from the front of the
local list when the remote insert succeeds or fails with conflict code
23505; when the insert fails with any other error code, the thrown error
bypasses the list update and the cards list is unchanged. -/
theorem claim_C2_amended (uid : String) (procSet : List Nat)
    (cards : List ImageCardData) (imageId : Nat) (dir : SwipeDir)
    (db : DbResult) (hproc : procSet.contains imageId = false) :
    (swipeProceeds db = true →
      (completeSwipe (some uid) procSet cards imageId dir db).cards
        = popIfFront cards imageId)
    ∧ (swipeProceeds db = false →
      (completeSwipe (some uid) procSet cards imageId dir db).cards = cards) := by
  have hmem : imageId ∉ procSet := by simpa using hproc
  cases db with
  | ok =>
    constructor
    · intro _
      simp [completeSwipe, hmem, swipeTryBody]
    · intro h
      simp [swipeProceeds] at h
  | err code =>
    by_cases hc : code = "23505"
    · constructor
      · intro _
        simp [completeSwipe, hmem, swipeTryBody, hc]
      · intro h
        simp [swipeProceeds, hc] at h
    · constructor
      · intro h
        simp [swipeProceeds, hc] at h
      · intro _
        simp [completeSwipe, hmem, swipeTryBody, hc]

/-- Witness for the amended claim C2: a conflict swipe pops the front
card, a hard-failure swipe leaves the list unchanged. -/
theorem claim_C2_amended_witness :
    swipeProceeds (DbResult.err "23505") = true
    ∧ (completeSwipe (some "u") [] [⟨1, "p", none⟩] 1 SwipeDir.right
        (DbResult.err "23505")).cards = popIfFront [⟨1, "p", none⟩] 1
    ∧ swipeProceeds (DbResult.err "42P01") = false
    ∧ (completeSwipe (some "u") [] [⟨1, "p", none⟩] 1 SwipeDir.right
        (DbResult.err "42P01")).cards = [⟨1, "p", none⟩] := by
  refine ⟨by decide, ?_, by decide, ?_⟩
  · exact (claim_C2_amended "u" [] [⟨1, "p", none⟩] 1 SwipeDir.right
      (DbResult.err "23505") (by decide)).1 (by decide)
  · exact (claim_C2_amended "u" [] [⟨1, "p", none⟩] 1 SwipeDir.right
      (DbResult.err "42P01") (by decide)).2 (by decide)

/-- Claim C3: an insert failure with the Postgres unique-violation code
23505 is swallowed: the whole observable outcome of completeSwipe equals
the outcome of a successful insert (in particular the top card is
removed the same way), no error state is set and no exception escapes. -/
theorem claim_C3 (userIdOpt : Option String) (procSet : List Nat)
    (cards : List ImageCardData) (imageId : Nat) (dir : SwipeDir) :
    completeSwipe userIdOpt procSet cards imageId dir (DbResult.err "23505")
      = completeSwipe userIdOpt procSet cards imageId dir DbResult.ok
    ∧ (completeSwipe userIdOpt procSet cards imageId dir
        (DbResult.err "23505")).errorSet = none
    ∧ (completeSwipe userIdOpt procSet cards imageId dir
        (DbResult.err "23505")).propagated = false := by
  refine ⟨?_, (completeSwipe_quiet _ _ _ _ _ _).1, (completeSwipe_quiet _ _ _ _ _ _).2⟩
  cases userIdOpt with
  | none => rfl
  | some uid =>
    unfold completeSwipe
    by_cases hp : imageId ∈ procSet
    · simp [hp]
    · simp [hp, swipeTryBody]

/-- Claim C9: completeSwipe leaves the cards list entirely unchanged
whenever the front card (if any) does not carry the swiped image id; in
contrapositive form, the list is mutated only when the id of the current
front card equals the swiped id. -/
theorem claim_C9 (userIdOpt : Option String) (procSet : List Nat)
    (cards : List ImageCardData) (imageId : Nat) (dir : SwipeDir)
    (db : DbResult)
    (hfront : ¬ cards.head?.map (fun c => c.id) = some imageId) :
    (completeSwipe userIdOpt procSet cards imageId dir db).cards = cards := by
  have hpop : popIfFront cards imageId = cards := by
    cases cards with
    | nil => rfl
    | cons c rest =>
      have hne : ¬ c.id = imageId := by simpa using hfront
      simp [popIfFront, hne]
  cases userIdOpt with
  | none => rfl
  | some uid =>
    unfold completeSwipe
    by_cases hp : imageId ∈ procSet
    · simp [hp]
    · cases db with
      | ok => simp [hp, swipeTryBody, hpop]
      | err code =>
        by_cases hc : code = "23505" <;> simp [hp, swipeTryBody, hc, hpop]

/-- Witness for claim C9: swiping an id that is not the front card
leaves the list untouched. -/
theorem claim_C9_witness :
    (¬ ([⟨2, "p", none⟩] : List ImageCardData).head?.map (fun c => c.id) = some 1)
    ∧ (completeSwipe (some "u") [] [⟨2, "p", none⟩] 1 SwipeDir.left
        DbResult.ok).cards = [⟨2, "p", none⟩] :=
  ⟨by decide,
   claim_C9 (some "u") [] [⟨2, "p", none⟩] 1 SwipeDir.left DbResult.ok (by decide)⟩

/-- Claim C4: a fetch returning a non-empty batch keeps the existing
cards as an unchanged prefix (same positions, same order) and appends at
the end exactly those fetched cards whose id is not already present,
with the fetched order preserved. -/
theorem claim_C4 (prev newCards : List ImageCardData) (hne : newCards ≠ []) :
    (fetchImagesUpdate prev newCards).take prev.length = prev
    ∧ (fetchImagesUpdate prev newCards).drop prev.length
        = newCards.filter
            (fun card => !((prev.map (fun c => c.id)).contains card.id)) := by
  have hlen : 0 < newCards.length := List.length_pos.mpr hne
  unfold fetchImagesUpdate fetchCombine
  rw [if_pos hlen]
  exact ⟨List.take_left prev _, List.drop_left prev _⟩

/-- Witness for claim C4 at a batch whose first element duplicates an id
already in the list: the old card keeps its position, and only the fresh
card is appended. -/
theorem claim_C4_witness :
    (([⟨1, "b", none⟩, ⟨2, "c", none⟩] : List ImageCardData) ≠ [])
    ∧ (fetchImagesUpdate [⟨1, "a", none⟩]
        [⟨1, "b", none⟩, ⟨2, "c", none⟩]).take 1 = [⟨1, "a", none⟩]
    ∧ (fetchImagesUpdate [⟨1, "a", none⟩]
        [⟨1, "b", none⟩, ⟨2, "c", none⟩]).drop 1 = [⟨2, "c", none⟩] := by
  have h := claim_C4 [⟨1, "a", none⟩] [⟨1, "b", none⟩, ⟨2, "c", none⟩] (by decide)
  exact ⟨by decide, by simpa using h.1, by simpa using h.2⟩

/-- Claim C5: the prefetch effect fires exactly when no fetch is in
flight, the backend has not been confirmed empty, and the cards list is
non-empty with length strictly below CARD_FETCH_THRESHOLD = 3; at or
above the threshold it never fires. -/
theorem claim_C5 (isFetching outOfCards : Bool) (cards : List ImageCardData) :
    (isFetching = false → outOfCards = false → 0 < cards.length →
      cards.length < CARD_FETCH_THRESHOLD →
      prefetchTriggers isFetching outOfCards cards = true)
    ∧ (CARD_FETCH_THRESHOLD ≤ cards.length →
      prefetchTriggers isFetching outOfCards cards = false) := by
  constructor
  · rintro rfl rfl h1 h2
    simp [prefetchTriggers, h1, h2]
  · intro h
    have h2 : ¬ cards.length < CARD_FETCH_THRESHOLD := Nat.not_lt.mpr h
    simp [prefetchTriggers, h2]

/-- Witness for claim C5: one card triggers a refill, three cards do
not. -/
theorem claim_C5_witness :
    prefetchTriggers false false [⟨1, "a", none⟩] = true
    ∧ prefetchTriggers false false
        [⟨1, "a", none⟩, ⟨2, "b", none⟩, ⟨3, "c", none⟩] = false := by
  refine ⟨?_, ?_⟩
  · exact (claim_C5 false false [⟨1, "a", none⟩]).1 rfl rfl (by decide) (by decide)
  · exact (claim_C5 false false
      [⟨1, "a", none⟩, ⟨2, "b", none⟩, ⟨3, "c", none⟩]).2 (by decide)

/-- Counterexample for claim C8: a fetched batch carrying two cards with
the same id, neither already in the (empty) list, passes the defensive
filter whole, so the resulting cards list holds two cards with id 1. -/
theorem claim_C8_counterexample :
    ¬ nodupIds (fetchImagesUpdate [] [⟨1, "a", none⟩, ⟨1, "b", none⟩]) := by
  decide

/-- Claim C8 as amended: the no-duplicate-ids invariant holds for the
initial empty list, is preserved by the fetch append provided the
fetched batch itself carries pairwise distinct ids (the defensive filter
only excludes ids already in the list), and is preserved by every
completeSwipe update. -/
theorem claim_C8_amended :
    nodupIds []
    ∧ (∀ prev newCards : List ImageCardData, nodupIds prev →
        (newCards.map (fun card => card.id)).Nodup →
        nodupIds (fetchImagesUpdate prev newCards))
    ∧ (∀ (userIdOpt : Option String) (procSet : List Nat)
        (cards : List ImageCardData) (imageId : Nat) (dir : SwipeDir)
        (db : DbResult), nodupIds cards →
        nodupIds (completeSwipe userIdOpt procSet cards imageId dir db).cards) := by
  refine ⟨by decide, ?_, ?_⟩
  · intro prev newCards hp hn
    by_cases hlen : 0 < newCards.length
    · unfold fetchImagesUpdate fetchCombine
      rw [if_pos hlen]
      unfold nodupIds at *
      rw [List.map_append, List.nodup_append]
      refine ⟨hp, hn.sublist ((List.filter_sublist _).map _), ?_⟩
      intro a ha hb
      obtain ⟨c, hc, rfl⟩ := List.mem_map.mp hb
      have hfc := (List.mem_filter.mp hc).2
      simp only [Bool.not_eq_eq_eq_not, Bool.not_true] at hfc
      have : ¬ c.id ∈ prev.map (fun d => d.id) := by simpa using hfc
      exact this ha
    · unfold fetchImagesUpdate
      rw [if_neg hlen]
      exact hp
  · intro userIdOpt procSet cards imageId dir db hc
    have hpop : nodupIds (popIfFront cards imageId) := by
      cases cards with
      | nil => exact hc
      | cons c rest =>
        by_cases hid : c.id = imageId
        · simp only [popIfFront, hid, if_pos]
          exact (by simpa [nodupIds] using hc : _ ∧ _).2
        · simpa [popIfFront, hid] using hc
    cases userIdOpt with
    | none => exact hc
    | some uid =>
      unfold completeSwipe
      by_cases hp : imageId ∈ procSet
      · simp [hp]
        exact hc
      · have hb : procSet.contains imageId = false := by simpa using hp
        cases db with
        | ok => simpa [hp, hb, swipeTryBody] using hpop
        | err code =>
          by_cases hcode : code = "23505"
          · simpa [hp, hb, swipeTryBody, hcode] using hpop
          · simpa [hp, hb, swipeTryBody, hcode] using hc

/-- Witness for the amended claim C8: appending a duplicate-free batch
to a duplicate-free list keeps the ids pairwise distinct. -/
theorem claim_C8_amended_witness :
    nodupIds ([⟨1, "a", none⟩] : List ImageCardData)
    ∧ (([⟨2, "b", none⟩] : List ImageCardData).map (fun card => card.id)).Nodup
    ∧ nodupIds (fetchImagesUpdate [⟨1, "a", none⟩] [⟨2, "b", none⟩]) :=
  ⟨by decide, by decide,
   claim_C8_amended.2.1 [⟨1, "a", none⟩] [⟨2, "b", none⟩] (by decide) (by decide)⟩

/-- The size branch passes exactly for a numeric size of at most
MAX_FILE_SIZE_MB megabytes. -/
lemma sizeCheckFails_eq_false_iff (v : MetaValue) :
    sizeCheckFails v = false
      ↔ ∃ n : Int, v = MetaValue.num n ∧ n ≤ MAX_FILE_SIZE_MB * 1024 * 1024 := by
  cases v with
  | num n => simp [sizeCheckFails, not_lt]
  | str s => simp [sizeCheckFails]
  | missing => simp [sizeCheckFails]

/-- The mimetype branch passes exactly for a string whose lowercase form
is in the allow-list. -/
lemma mimeCheckFails_eq_false_iff (v : MetaValue) :
    mimeCheckFails v = false
      ↔ ∃ s : String, v = MetaValue.str s ∧ toLowerStr s ∈ ALLOWED_MIME_TYPES := by
  cases v with
  | num n => simp [mimeCheckFails]
  | str s => simp [mimeCheckFails]
  | missing => simp [mimeCheckFails]

/-- Claim C6: on a storage insert record for the avatars bucket, the
handler deletes the object and reports an error if and only if the
metadata size is not a number of at most 2 MiB or the mimetype is not,
case-insensitively, one of the four allowed image types; a record that
passes both checks is returned as validated (not deleted, no error). -/
theorem claim_C6 (record : StorageRecord) (removeOk : Bool)
    (hb : record.bucket_id = "avatars") :
    ((deleteIssued (handleStorageObjectInsert record removeOk) = true
        ∧ reportsError (handleStorageObjectInsert record removeOk) = true)
      ↔ ¬ ((∃ n : Int, record.size = MetaValue.num n ∧ n ≤ 2 * 1024 * 1024)
            ∧ (∃ s : String, record.mimetype = MetaValue.str s
                ∧ toLowerStr s ∈ ALLOWED_MIME_TYPES)))
    ∧ (((∃ n : Int, record.size = MetaValue.num n ∧ n ≤ 2 * 1024 * 1024)
          ∧ (∃ s : String, record.mimetype = MetaValue.str s
              ∧ toLowerStr s ∈ ALLOWED_MIME_TYPES))
        → handleStorageObjectInsert record removeOk = HandleOutcome.validated) := by
  have hmax : MAX_FILE_SIZE_MB * 1024 * 1024 = (2 * 1024 * 1024 : Int) := by decide
  have hcond : (sizeCheckFails record.size || mimeCheckFails record.mimetype) = false
      ↔ ((∃ n : Int, record.size = MetaValue.num n ∧ n ≤ 2 * 1024 * 1024)
          ∧ (∃ s : String, record.mimetype = MetaValue.str s
              ∧ toLowerStr s ∈ ALLOWED_MIME_TYPES)) := by
    rw [Bool.or_eq_false_iff, sizeCheckFails_eq_false_iff,
      mimeCheckFails_eq_false_iff, hmax]
  unfold handleStorageObjectInsert
  rw [if_neg (by simp [hb])]
  cases hfail : (sizeCheckFails record.size || mimeCheckFails record.mimetype) with
  | false =>
    rw [if_neg (by simp [hfail])]
    refine ⟨?_, fun _ => rfl⟩
    constructor
    · intro hcontra
      exact absurd hcontra.1 (by decide)
    · intro hcontra
      exact absurd (hcond.mp hfail) hcontra
  | true =>
    rw [if_pos (by simp [hfail])]
    have hnot : ¬ ((∃ n : Int, record.size = MetaValue.num n ∧ n ≤ 2 * 1024 * 1024)
        ∧ (∃ s : String, record.mimetype = MetaValue.str s
            ∧ toLowerStr s ∈ ALLOWED_MIME_TYPES)) := by
      intro hcontra
      rw [← hcond] at hcontra
      simp [hfail] at hcontra
    refine ⟨?_, fun hcontra => absurd hcontra hnot⟩
    constructor
    · intro _
      exact hnot
    · intro _
      cases removeOk <;> exact ⟨rfl, rfl⟩

/-- Witness for claim C6: a 1000-byte upload with mimetype IMAGE/PNG in
the avatars bucket is accepted. -/
theorem claim_C6_witness :
    (StorageRecord.mk "avatars" "u/a.png" (MetaValue.num 1000)
        (MetaValue.str "IMAGE/PNG")).bucket_id = "avatars"
    ∧ handleStorageObjectInsert
        (StorageRecord.mk "avatars" "u/a.png" (MetaValue.num 1000)
          (MetaValue.str "IMAGE/PNG")) true = HandleOutcome.validated := by
  refine ⟨rfl, ?_⟩
  exact (claim_C6 (StorageRecord.mk "avatars" "u/a.png" (MetaValue.num 1000)
      (MetaValue.str "IMAGE/PNG")) true rfl).2
    ⟨⟨1000, rfl, by decide⟩, ⟨"IMAGE/PNG", rfl, by decide⟩⟩

/-- Claim C7: an arrow keypress strictly less than KEY_COOLDOWN_MS = 400
milliseconds after the last accepted keyboard swipe is ignored (no swipe
action, press time and cards unchanged); a keypress at or after the
cooldown, with auth loaded and a non-empty cards list, records the press
time and swipes the top card in the direction of the arrow. -/
theorem claim_C7 (now lastKeyPressTime : Int) (isLoadingAuth : Bool)
    (cards : List ImageCardData) (key : Key) :
    (now - lastKeyPressTime < KEY_COOLDOWN_MS →
      onKeyDown now lastKeyPressTime isLoadingAuth cards key
        = { lastKeyPressTime := lastKeyPressTime, action := none, cards := cards })
    ∧ (KEY_COOLDOWN_MS ≤ now - lastKeyPressTime → isLoadingAuth = false →
        ∀ topCard rest, cards = topCard :: rest →
          (key = Key.arrowLeft →
            onKeyDown now lastKeyPressTime isLoadingAuth cards key
              = { lastKeyPressTime := now,
                  action := some (topCard.id, SwipeDir.left), cards := cards })
          ∧ (key = Key.arrowRight →
            onKeyDown now lastKeyPressTime isLoadingAuth cards key
              = { lastKeyPressTime := now,
                  action := some (topCard.id, SwipeDir.right), cards := cards })) := by
  constructor
  · intro h
    unfold onKeyDown
    rw [if_pos h]
  · intro h hauth topCard rest hcards
    have hnl : ¬ now - lastKeyPressTime < KEY_COOLDOWN_MS := not_lt.mpr h
    subst hcards
    subst hauth
    constructor
    · rintro rfl
      unfold onKeyDown
      rw [if_neg hnl, if_neg (by simp)]
    · rintro rfl
      unfold onKeyDown
      rw [if_neg hnl, if_neg (by simp)]

/-- Witness for claim C7: a press 100 ms after the last one is ignored,
a press 400 ms after it swipes the top card left. -/
theorem claim_C7_witness :
    ((100 : Int) - 0 < KEY_COOLDOWN_MS)
    ∧ onKeyDown 100 0 false [⟨1, "a", none⟩] Key.arrowLeft
        = { lastKeyPressTime := 0, action := none, cards := [⟨1, "a", none⟩] }
    ∧ (KEY_COOLDOWN_MS ≤ (400 : Int) - 0)
    ∧ onKeyDown 400 0 false [⟨1, "a", none⟩] Key.arrowLeft
        = { lastKeyPressTime := 400,
            action := some (1, SwipeDir.left), cards := [⟨1, "a", none⟩] } := by
  refine ⟨by decide, ?_, by decide, ?_⟩
  · exact (claim_C7 100 0 false [⟨1, "a", none⟩] Key.arrowLeft).1 (by decide)
  · exact ((claim_C7 400 0 false [⟨1, "a", none⟩] Key.arrowLeft).2 (by decide) rfl
      ⟨1, "a", none⟩ [] rfl).1 rfl

/-- Claim C10: the admin toggle is asymmetric: a request with
isAdmin=true replaces the roles array by exactly ["admin"], discarding
any other roles; a request with isAdmin=false removes only the "admin"
entries, preserving all other roles in order, and drops the roles key
(none) exactly when nothing remains. -/
theorem claim_C10 (currentRoles : List String) :
    adminRoleUpdate true currentRoles = some ["admin"]
    ∧ (∀ out, adminRoleUpdate false currentRoles = some out →
        out = currentRoles.filter (fun role => !(role == "admin"))
        ∧ "admin" ∉ out
        ∧ ∀ role, role ∈ currentRoles → role ≠ "admin" → role ∈ out)
    ∧ (adminRoleUpdate false currentRoles = none
        ↔ currentRoles.filter (fun role => !(role == "admin")) = []) := by
  have heval : adminRoleUpdate false currentRoles
      = (if 0 < (currentRoles.filter (fun role => !(role == "admin"))).length
         then some (currentRoles.filter (fun role => !(role == "admin")))
         else none) := rfl
  refine ⟨rfl, ?_, ?_⟩
  · intro out hout
    rw [heval] at hout
    by_cases hlen : 0 < (currentRoles.filter (fun role => !(role == "admin"))).length
    · rw [if_pos hlen] at hout
      obtain rfl : currentRoles.filter (fun role => !(role == "admin")) = out :=
        Option.some.inj hout
      refine ⟨rfl, ?_, ?_⟩
      · intro hmem
        have h2 := (List.mem_filter.mp hmem).2
        simp at h2
      · intro role hr hne
        exact List.mem_filter.mpr ⟨hr, by simpa using hne⟩
    · rw [if_neg hlen] at hout
      exact Option.noConfusion hout
  · rw [heval]
    by_cases hlen : 0 < (currentRoles.filter (fun role => !(role == "admin"))).length
    · rw [if_pos hlen]
      constructor
      · intro hcontra
        exact Option.noConfusion hcontra
      · intro hnil
        rw [hnil] at hlen
        simp at hlen
    · rw [if_neg hlen]
      constructor
      · intro _
        exact List.length_eq_zero.mp (Nat.eq_zero_of_not_pos hlen)
      · intro _
        rfl

/-- Witness for claim C10: demoting a user with roles editor and admin
keeps only editor; promoting any user yields exactly the admin role. -/
theorem claim_C10_witness :
    adminRoleUpdate true ["editor"] = some ["admin"]
    ∧ adminRoleUpdate false ["editor", "admin"] = some ["editor"]
    ∧ (["editor"] : List String)
        = ["editor", "admin"].filter (fun role => !(role == "admin"))
    ∧ "admin" ∉ (["editor"] : List String) := by
  have h := (claim_C10 ["editor", "admin"]).2.1 ["editor"] (by decide)
  exact ⟨(claim_C10 ["editor"]).1, by decide, h.1, h.2.1⟩
